import Mathlib

/-!
Verification of the ConnectWise GPT triage script
(`connectwise-gpt-triage-script.py`).

The script is a single-pass batch pipeline: fetch new tickets from the
ConnectWise REST API, aggregate each ticket's notes into a description,
send the result to a chat-completion service, and post the analysis back
as an internal note.  This file gives a shallow embedding of that
pipeline.  Python dict/list/JSON values are modelled by the inductive
type `Val`; every network interaction is modelled by an oracle function
supplied as an argument (`String → HttpOutcome` for HTTP,
`ChatRequest → SvcOutcome` for the completion service); a Python
expression that may raise is modelled as an `Option`, with `none`
standing for a raised exception, and each `try/except` of the source is
an explicit `match` on that `Option`.
-/

namespace Triage

/-- Python/JSON values: the scripts manipulates parsed JSON bodies and
Python dict literals, all of which fall in this grammar. -/
inductive Val where
  | str : String → Val
  | int : Int → Val
  | bool : Bool → Val
  | null : Val
  | arr : List Val → Val
  | obj : List (String × Val) → Val

/-- First-match lookup in an association list, modelling Python dict
lookup (dict literals in the source have no duplicate keys). -/
def lookupKey (fs : List (String × Val)) (k : String) : Option Val :=
  match fs with
  | [] => none
  | (k', v) :: rest => if k' = k then some v else lookupKey rest k

/-- Python `d.get(key, default)` on a dict's fields. -/
def lookupD (fs : List (String × Val)) (k : String) (d : Val) : Val :=
  match lookupKey fs k with
  | some v => v
  | none => d

/-- Python `v[key]` subscription: raises (`none`) when `v` is not a dict
(TypeError) or the key is missing (KeyError). -/
def pySubscript (v : Val) (k : String) : Option Val :=
  match v with
  | .obj fs => lookupKey fs k
  | _ => none

/-- Python `v.get(key, default)`: only dicts have `.get`, so a non-dict
receiver raises AttributeError (`none`). -/
def valGetD? (v : Val) (k : String) (d : Val) : Option Val :=
  match v with
  | .obj fs => some (lookupD fs k d)
  | _ => none

/-- Python truthiness of a value, as used by `if notes_url:` and
`if note_texts`. -/
def pyTruthy : Val → Bool
  | .str s => !(s == "")
  | .int n => !(n == 0)
  | .bool b => b
  | .null => false
  | .arr xs => !xs.isEmpty
  | .obj fs => !fs.isEmpty

/-- Python `str(v)` as used by f-string interpolation.  The pipeline only
interpolates scalar values (strings, ints, None); the container cases
abbreviate Python's repr and are never reached by the claims. -/
def pyStr : Val → String
  | .str s => s
  | .int n => toString n
  | .bool b => if b then "True" else "False"
  | .null => "None"
  | .arr _ => "[...]"
  | .obj _ => "\x7b...\x7d"

/-- ASCII whitespace recognised by Python `str.strip()`. -/
def pyIsSpace (c : Char) : Bool :=
  c == ' ' || c == '\t' || c == '\n' || c == '\r' || c == '\x0b' || c == '\x0c'

/-- Python `s.strip()`: drop leading and trailing whitespace. -/
def pyStrip (s : String) : String :=
  String.mk (((s.data.dropWhile pyIsSpace).reverse.dropWhile pyIsSpace).reverse)

/-! ### urllib.parse.quote (source line 65) -/

/-- UTF-8 encoding of one character, as `urllib.parse.quote` encodes the
string before percent-escaping byte by byte. -/
def utf8Bytes (c : Char) : List Nat :=
  let n := c.toNat
  if n < 0x80 then [n]
  else if n < 0x800 then [0xC0 ||| (n >>> 6), 0x80 ||| (n &&& 0x3F)]
  else if n < 0x10000 then
    [0xE0 ||| (n >>> 12), 0x80 ||| ((n >>> 6) &&& 0x3F), 0x80 ||| (n &&& 0x3F)]
  else
    [0xF0 ||| (n >>> 18), 0x80 ||| ((n >>> 12) &&& 0x3F),
     0x80 ||| ((n >>> 6) &&& 0x3F), 0x80 ||| (n &&& 0x3F)]

/-- Bytes `urllib.parse.quote` leaves unescaped with the default
`safe='/'`: ALPHA, DIGIT, `_`, `.`, `-`, `~` and `/`. -/
def isSafeByte (b : Nat) : Bool :=
  (48 ≤ b && b ≤ 57) || (65 ≤ b && b ≤ 90) || (97 ≤ b && b ≤ 122) ||
  b == 45 || b == 46 || b == 95 || b == 126 || b == 47

/-- Uppercase hexadecimal digit, as produced by `urllib.parse.quote`. -/
def hexDigit (n : Nat) : Char :=
  if n < 10 then Char.ofNat (48 + n) else Char.ofNat (55 + n)

/-- Percent-escape a single byte. -/
def quoteByte (b : Nat) : List Char :=
  if isSafeByte b then [Char.ofNat b]
  else ['%', hexDigit (b / 16), hexDigit (b % 16)]

/-- `urllib.parse.quote(s)` with the default `safe='/'`. -/
def pyQuote (s : String) : String :=
  String.mk (((s.data.map utf8Bytes).flatten.map quoteByte).flatten)

/-- Value of one hexadecimal digit character, for percent-decoding. -/
def hexVal (c : Char) : Option Nat :=
  let n := c.toNat
  if 48 ≤ n && n ≤ 57 then some (n - 48)
  else if 65 ≤ n && n ≤ 70 then some (n - 55)
  else if 97 ≤ n && n ≤ 102 then some (n - 87)
  else none

/-- Percent-decoding to a byte sequence (`urllib.parse.unquote` on the
byte level); fails on a malformed escape. -/
def percentDecodeBytes : List Char → Option (List Nat)
  | [] => some []
  | '%' :: h :: l :: rest => do
      let hv ← hexVal h
      let lv ← hexVal l
      let bs ← percentDecodeBytes rest
      pure ((16 * hv + lv) :: bs)
  | '%' :: _ => none
  | c :: rest => do
      let bs ← percentDecodeBytes rest
      pure (c.toNat :: bs)

/-- Decode a byte sequence as ASCII text (sufficient here: the predicate
string the script encodes is pure ASCII). -/
def bytesToAscii? : List Nat → Option (List Char)
  | [] => some []
  | b :: bs =>
    if b < 128 then do
      let cs ← bytesToAscii? bs
      pure (Char.ofNat b :: cs)
    else none

/-- Percent-decode a string in the ASCII fragment. -/
def asciiPercentDecode (s : String) : Option String := do
  let bs ← percentDecodeBytes s.data
  let cs ← bytesToAscii? bs
  pure (String.mk cs)

/-! ### Time-window computation (source lines 35, 48–57)

Python `datetime` arithmetic on timezone-aware values is arithmetic on
absolute instants; the attached timezone only affects display.  An aware
datetime is therefore modelled as an absolute instant (seconds since the
Unix epoch) together with its display offset. -/

/-- Timezone-aware datetime: absolute instant plus display offset. -/
structure AwareDatetime where
  epoch : Int
  tzOffsetHours : Int

/-- `TIME_WINDOW_MINUTES = 5` (source line 35). -/
def TIME_WINDOW_MINUTES : Int := 5

/-- `datetime.now(brisbane_offset)` at absolute instant `nowEpoch`
(source lines 49–52). -/
def nowBrisbane (nowEpoch : Int) : AwareDatetime := ⟨nowEpoch, 10⟩

/-- Subtraction of a `timedelta(minutes=m)` (source line 53). -/
def subMinutes (dt : AwareDatetime) (m : Int) : AwareDatetime :=
  ⟨dt.epoch - m * 60, dt.tzOffsetHours⟩

/-- `astimezone(timezone.utc)` (source line 56): same instant, offset 0. -/
def astimezoneUtc (dt : AwareDatetime) : AwareDatetime := ⟨dt.epoch, 0⟩

/-- Civil date from days since the Unix epoch (proleptic Gregorian),
modelling the calendar part of `strftime`. -/
def civilFromDays (z0 : Int) : Int × Int × Int :=
  let z := z0 + 719468
  let era := Int.fdiv z 146097
  let doe := z - era * 146097
  let yoe := Int.fdiv (doe - Int.fdiv doe 1460 + Int.fdiv doe 36524 - Int.fdiv doe 146096) 365
  let y := yoe + era * 400
  let doy := doe - (365 * yoe + Int.fdiv yoe 4 - Int.fdiv yoe 100)
  let mp := Int.fdiv (5 * doy + 2) 153
  let d := doy - Int.fdiv (153 * mp + 2) 5 + 1
  let m := mp + (if mp < 10 then 3 else -9)
  (y + (if m ≤ 2 then 1 else 0), m, d)

/-- Two-digit zero padding for `%m %d %H %M %S`. -/
def pad2 (n : Int) : String :=
  if n < 10 then "0" ++ toString n else "" ++ toString n

/-- `strftime('%Y-%m-%dT%H:%M:%SZ')` on an aware datetime (source
line 57): formats the displayed local time, i.e. instant plus offset. -/
def strftimeISO (dt : AwareDatetime) : String :=
  let localSecs := dt.epoch + dt.tzOffsetHours * 3600
  let days := Int.fdiv localSecs 86400
  let secs := Int.emod localSecs 86400
  let ymd := civilFromDays days
  (toString ymd.1 ++ "-" ++ pad2 ymd.2.1 ++ "-" ++ pad2 ymd.2.2 ++ "T" ++
    pad2 (Int.fdiv secs 3600)) ++ ":" ++
  (pad2 (Int.fdiv (Int.emod secs 3600) 60) ++ ":" ++ pad2 (Int.emod secs 60) ++ "Z")

/-- `time_cutoff_str` as computed for a run whose current instant is
`nowEpoch` (source lines 52–57): five minutes before now, rendered in
UTC.  The Brisbane offset cancels because aware-datetime arithmetic is
instant arithmetic. -/
def timeCutoffStr (nowEpoch : Int) : String :=
  strftimeISO (astimezoneUtc (subMinutes (nowBrisbane nowEpoch) TIME_WINDOW_MINUTES))

/-! ### Query construction (source lines 60–68) -/

/-- The `conditions` string (source line 60).  Note it filters on
status, board, owner and contact name: the computed time cutoff is not
part of it. -/
def conditionsStr : String :=
  "status/name=\"New\" and board/name=\"Service\" and owner/name=null and contact/name=\"Thegen Jackson\""

/-- The request URL (source lines 65–68).  `time_cutoff_str` is computed
by the source (lines 48–57) but used only in a log message (line 87),
never in the URL; the unused binding mirrors that. -/
def buildRequestUrl (cwSite : String) (nowEpoch : Int) : String :=
  let _time_cutoff_str := timeCutoffStr nowEpoch
  let encoded_conditions := pyQuote conditionsStr
  cwSite ++ "/v4_6_release/apis/3.0/service/tickets?conditions=" ++ encoded_conditions

/-! ### HTTP model -/

/-- An HTTP response as the script observes it: a status code and the
result of `response.json()` (`none` when the body is not valid JSON, in
which case `.json()` raises). -/
structure HttpResp where
  status : Nat
  body : Option Val

/-- Outcome of one `requests.get`/`requests.post` call: a response, or a
transport-level exception (`requests.exceptions.RequestException`). -/
inductive HttpOutcome where
  | ok : HttpResp → HttpOutcome
  | failure : HttpOutcome

/-- `requests.get(...)` as an expression: raises (`none`) on transport
failure. -/
def reqGet? : HttpOutcome → Option HttpResp
  | .ok r => some r
  | .failure => none

/-- `response.raise_for_status()` (source line 83): raises `HTTPError`
exactly for 4xx and 5xx status codes. -/
def raiseForStatus? (r : HttpResp) : Option Unit :=
  if 400 ≤ r.status ∧ r.status < 600 then none else some ()

/-- Iterating the parsed body as a ticket list.  A non-list JSON body
makes the loop body raise a TypeError at `ticket['id']` (or `len()` at
source line 87), which the generic handler turns into `[]`; so only a
JSON array proceeds. -/
def asArray? : Val → Option (List Val)
  | .arr xs => some xs
  | _ => none

/-! ### Per-ticket note aggregation (source lines 92–118) -/

/-- The `notes_url` computation (source line 98) combined with the
`if notes_url:` truthiness test (line 99).  Result:
`none` = an exception was raised (`_info` present but not a dict, so
`.get` raises AttributeError; or a truthy non-string href, so
`requests.get` raises); `some none` = the else-branch (no `_info` key,
or a falsy href) taken at line 107; `some (some u)` = notes are fetched
from `u`. -/
def notesUrl? (fs : List (String × Val)) : Option (Option String) :=
  match lookupKey fs "_info" with
  | none => some none
  | some (.obj infoFs) =>
    let href := lookupD infoFs "notes_href" .null
    if pyTruthy href then
      match href with
      | .str u => some (some u)
      | _ => none
    else some none
  | some _ => none

/-- `note['text']` restricted to strings: a missing key raises KeyError,
a non-dict note raises TypeError, and a non-string text makes
`' '.join` raise TypeError (source line 103). -/
def noteText? (note : Val) : Option String :=
  match note with
  | .obj nfs =>
    match lookupKey nfs "text" with
    | some (.str s) => some s
    | _ => none
  | _ => none

/-- The list comprehension `[note['text'] for note in notes]`
(source line 103), propagating any raised exception. -/
def noteTexts? : List Val → Option (List String)
  | [] => some []
  | n :: ns => do
      let t ← noteText? n
      let ts ← noteTexts? ns
      pure (t :: ts)

/-- `full_description` (source lines 99–108), given the resolved
`notes_url` branch.  `none` propagates an exception raised inside the
outer `try` of `fetchNewTickets`. -/
def aggregateDescription? (http : String → HttpOutcome) : Option String → Option String
  | none => some "No notes URL available"
  | some u =>
    match http u with
    | .failure => none
    | .ok r =>
      if r.status = 200 then
        match r.body with
        | some (.arr notes) => do
            let texts ← noteTexts? notes
            pure (if texts.isEmpty then "No notes available"
                  else String.intercalate " " texts)
        | _ => none
      else some "Error fetching notes"

/-- One iteration of the ticket loop (source lines 92–118): builds the
`ticket_data` record, or raises (`none`, aborting the whole fetch).
The binding of `description` at source line 95 is dead (overwritten by
`full_description`) and cannot raise, so it is omitted. -/
def processOneTicket (http : String → HttpOutcome) (ticket : Val) : Option Val :=
  match ticket with
  | .obj fs => do
      let tid ← lookupKey fs "id"
      let summary ← lookupKey fs "summary"
      let urlOpt ← notesUrl? fs
      let d ← aggregateDescription? http urlOpt
      pure (.obj [("Ticket ID", tid), ("Summary", summary), ("Description", .str d)])
  | _ => none

/-- The whole `for ticket in tickets` loop (source lines 92–118): an
exception in any iteration propagates and discards all accumulated
records. -/
def processAll (http : String → HttpOutcome) : List Val → Option (List Val)
  | [] => some []
  | t :: ts => do
      let v ← processOneTicket http t
      let vs ← processAll http ts
      pure (v :: vs)

/-- The `try` block of `fetchNewTickets` (source lines 47–120): `none`
means an exception escaped the block and reaches the handlers. -/
def fetchNewTicketsTry (site : String) (nowEpoch : Int)
    (http : String → HttpOutcome) : Option (List Val) := do
  let r ← reqGet? (http (buildRequestUrl site nowEpoch))
  let _ ← raiseForStatus? r
  let body ← r.body
  let tickets ← asArray? body
  processAll http tickets

/-- `fetchNewTickets` (source lines 46–130): both `except` handlers
(lines 122–130) log and return `[]`, so every raised exception becomes
the empty list. -/
def fetchNewTickets (site : String) (nowEpoch : Int)
    (http : String → HttpOutcome) : List Val :=
  match fetchNewTicketsTry site nowEpoch http with
  | some tickets => tickets
  | none => []

/-! ### Triage analysis (source lines 133–198) -/

/-- One chat message. -/
structure ChatMessage where
  role : String
  content : String

/-- One chat-completion request, as passed to
`client.chat.completions.create` (source lines 187–189). -/
structure ChatRequest where
  model : String
  messages : List ChatMessage

/-- Outcome of the completion call: the list of choice contents
(`choice.message.content` for each returned choice), or a raised
service exception. -/
inductive SvcOutcome where
  | choices : List String → SvcOutcome
  | error : SvcOutcome

/-- The fixed `system_prompt` (source lines 139–162). -/
def systemPrompt : String :=
  "You are a triage analyst reviewing tickets submitted from ConnectWise Manage. " ++
  "When a ticket is pasted, extract and return a structured analysis in the format below. " ++
  "The tone must be formal, objective, and neutral. " ++
  "The analysis should not include casual language, conversational phrasing (e.g., \x27Thanks\x27, \x27Here\x27s\x27, \x27I\x27ve reviewed\x27), or emojis. " ++
  "The response should be suitable for internal technical documentation, " ++
  "focusing on the issue at hand and addressing any non-urgent aspects appropriately. " ++
  "Urgency should be assessed in a rational manner based on the nature of the request, " ++
  "with criticality being evaluated relative to the operational environment. " ++
  "For example, issues like email signature creation should not be categorized as urgent compared to system failures or security issues. " ++
  "Triage Analysis should be thorough but concise, " ++
  "offering explanations for verdicts without any informal phrasing or personal commentary. " ++
  "Explanatory phrasing should focus on factual reasoning and professional justification of decisions. " ++
  "Avoid introductory statements like \x27this appears to be\x27 or \x27here’s what I found\x27. " ++
  "Ensure that standard elements (e.g., stock images, legal disclaimers) are recognized as routine and non-urgent, " ++
  "unless specific deviations or complications are stated. " ++
  "Avoid assuming urgency based solely on customer input, particularly in non-critical cases. " ++
  "Next Steps or Initial Troubleshooting Recommendations should be provided where applicable. " ++
  "These steps should be actionable, practical, and based on a logical order of resolution. " ++
  "They should focus on resolving the issue or providing guidance on how to proceed with further investigation. " ++
  "Include any relevant resources, tools, or documentation links that may assist in the resolution. " ++
  "Recommendations should be clear, precise, and professional. " ++
  "Strictly no emojis to be used at all."

/-- The `user_prompt` f-string (source lines 164–185), or `none` when
one of its accesses raises.  All ticket fields are read with `.get` and
a default (`ticket.get('id', 'Unknown ID')` etc.), so a missing key
never raises; what can raise is `.get` on a non-dict receiver: a
non-dict ticket, or a present `Company`/`Priority` value that is not a
dict. -/
def userPrompt? (ticket : Val) : Option String :=
  match ticket with
  | .obj fs => do
      let ticket_id := lookupD fs "id" (.str "Unknown ID")
      let summary := lookupD fs "summary" (.str "No summary available")
      let full_description := lookupD fs "Description" (.str "No description available")
      let companyName ← valGetD? (lookupD fs "Company" (.obj [])) "Name" (.str "Unknown Company")
      let priorityName ← valGetD? (lookupD fs "Priority" (.obj [])) "Name" (.str "Unknown")
      pure ("\nTitle: " ++ pyStr summary ++
        "\nClient: " ++ pyStr companyName ++
        "\nIssue: " ++ pyStr full_description ++
        "\nTroubleshooting Steps Taken: None documented" ++
        "\nImpact: Unclear from ticket" ++
        "\nUrgency/Priority: " ++ pyStr priorityName ++
        "\nNotes:\n- Ticket ID: " ++ pyStr ticket_id ++
        "\n\nTriage Analysis:\n")
  | _ => none

/-- The completion request built at source lines 187–189: fixed model
identifier, the fixed system message, and the per-ticket user prompt. -/
def triageRequest (userPromptText : String) : ChatRequest :=
  ⟨"gpt-3.5-turbo", [⟨"system", systemPrompt⟩, ⟨"user", userPromptText⟩]⟩

/-- The `try` body of `getTriageOutput` (source lines 134–191): `none`
when an exception is raised (a `.get` on a non-dict, a service error,
or `choices[0]` on an empty choice list). -/
def tryTriage (svc : ChatRequest → SvcOutcome) (ticket : Val) : Option String := do
  let up ← userPrompt? ticket
  match svc (triageRequest up) with
  | .choices (c :: _) => pure (pyStrip c)
  | .choices [] => none
  | .error => none

/-- `getTriageOutput` (source lines 133–198).  The `except KeyError`
handler (lines 193–195, the "Triage failed: Missing required ticket
data." sentinel) is unreachable: every ticket-field access in the `try`
body uses `.get` with a default, and the exceptions that can occur
(AttributeError from `.get` on a non-dict, service errors, IndexError
from `choices[0]`) are not `KeyError`, so they all reach the generic
`except Exception` handler (lines 196–198). -/
def getTriageOutput (svc : ChatRequest → SvcOutcome) (ticket : Val) : String :=
  match tryTriage svc ticket with
  | some s => s
  | none => "Triage failed: GPT processing error."

/-! ### Note publishing (source lines 202–221) -/

/-- The JSON payload of the note-creation request (source lines
207–212). -/
structure NotePayload where
  text : String
  detailDescriptionFlag : Bool
  internalAnalysisFlag : Bool
  resolutionFlag : Bool

/-- One outbound POST: target URL and payload. -/
structure WriteRequest where
  url : String
  payload : NotePayload

/-- `postTicketNote` (source lines 202–221), as the write request it
issues.  The response to the POST only affects logging — both success
and the `except Exception` handler (lines 220–221) fall through without
raising or changing state — so the embedding records the issued
request. -/
def postTicketNote (cwSite : String) (ticket_id : Val) (note_text : String) : WriteRequest :=
  { url := cwSite ++ "/v4_6_release/apis/3.0/service/tickets/" ++ pyStr ticket_id ++ "/notes"
    payload := { text := note_text
                 detailDescriptionFlag := false
                 internalAnalysisFlag := true
                 resolutionFlag := false } }

/-! ### Orchestrator (source lines 224–231) -/

/-- Result of one `processTickets` run: either the loop completed, or an
uncaught exception aborted it; in both cases, the note-creation write
requests issued before that point, in order. -/
inductive RunResult where
  | completed : List WriteRequest → RunResult
  | crashed : List WriteRequest → RunResult

/-- The writes a run issued, whether or not it completed. -/
def writesOf : RunResult → List WriteRequest
  | .completed ws => ws
  | .crashed ws => ws

/-- The `for ticket in tickets` loop of `processTickets` (source lines
226–231): per iteration, `getTriageOutput` is evaluated first, then the
argument `ticket['id']` — a plain subscription whose KeyError is not
caught anywhere in `processTickets`, so it aborts the run. -/
def processLoop (site : String) (svc : ChatRequest → SvcOutcome) : List Val → RunResult
  | [] => .completed []
  | t :: ts =>
    let triage_output := getTriageOutput svc t
    match pySubscript t "id" with
    | none => .crashed []
    | some tid =>
      let w := postTicketNote site tid triage_output
      match processLoop site svc ts with
      | .completed ws => .completed (w :: ws)
      | .crashed ws => .crashed (w :: ws)

/-- `processTickets` (source lines 224–231). -/
def processTickets (site : String) (nowEpoch : Int)
    (http : String → HttpOutcome) (svc : ChatRequest → SvcOutcome) : RunResult :=
  processLoop site svc (fetchNewTickets site nowEpoch http)

/-! ### Helper lemmas -/

/-- Every record in a successful run of the ticket loop comes from one
input ticket. -/
theorem processAll_mem_exists (http : String → HttpOutcome) :
    ∀ (ts l : List Val), processAll http ts = some l →
      ∀ v ∈ l, ∃ t ∈ ts, processOneTicket http t = some v := by
  intro ts
  induction ts with
  | nil =>
    intro l h v hv
    simp only [processAll, Option.some.injEq] at h
    subst h
    simp at hv
  | cons t ts ih =>
    intro l h v hv
    simp only [processAll, Option.bind_eq_bind, Option.bind_eq_some, Option.pure_def,
      Option.some.injEq] at h
    obtain ⟨v0, hv0, vs, hvs, hl⟩ := h
    subst hl
    rcases List.mem_cons.mp hv with hv | hv
    · exact ⟨t, List.mem_cons_self t ts, hv ▸ hv0⟩
    · obtain ⟨t', ht', h'⟩ := ih vs hvs v hv
      exact ⟨t', List.mem_cons_of_mem t ht', h'⟩

/-- Any record the ticket loop produces is a dict with exactly the keys
`Ticket ID`, `Summary`, `Description`. -/
theorem processOneTicket_shape (http : String → HttpOutcome) (t v : Val)
    (h : processOneTicket http t = some v) :
    ∃ tid s d, v = .obj [("Ticket ID", tid), ("Summary", s), ("Description", .str d)] := by
  cases t with
  | obj fs =>
    simp only [processOneTicket, Option.bind_eq_bind, Option.bind_eq_some, Option.pure_def,
      Option.some.injEq] at h
    obtain ⟨tid, _, s, _, uo, _, d, _, hv⟩ := h
    exact ⟨tid, s, d, hv.symm⟩
  | str s => simp [processOneTicket] at h
  | int n => simp [processOneTicket] at h
  | bool b => simp [processOneTicket] at h
  | null => simp [processOneTicket] at h
  | arr xs => simp [processOneTicket] at h

/-- A colon occurs in any string of the form `a ++ ":" ++ b`. -/
theorem colon_mem_append (a b : String) : ':' ∈ (a ++ ":" ++ b).data := by
  rw [String.data_append, String.data_append]
  exact List.mem_append_left _ (List.mem_append_right _ (by decide))

/-- Every formatted timestamp contains a colon (the `%H:%M` separator of
the fixed format string). -/
theorem colon_mem_timeCutoffStr (t : Int) : ':' ∈ (timeCutoffStr t).data :=
  colon_mem_append _ _

/-! ### Claim theorems -/

/-- C10: the request URL built by `fetchNewTickets` is independent of
the current time — two runs at arbitrary instants with the same
configuration build the same URL — and the computed time cutoff never
occurs inside the conditions string (its timestamp always contains a
colon, and the conditions string contains none). -/
theorem request_url_time_independent (site : String) (t1 t2 : Int) :
    buildRequestUrl site t1 = buildRequestUrl site t2 ∧
    ¬ ((timeCutoffStr t1).data <:+: conditionsStr.data) := by
  refine ⟨rfl, fun h => ?_⟩
  have h2 : ':' ∈ conditionsStr.data := h.subset (colon_mem_timeCutoffStr t1)
  have h3 : ':' ∉ conditionsStr.data := by decide
  exact h3 h2

set_option maxRecDepth 8192 in
/-- C3 counterexample: the claim asserts that decoding the encoded
predicate reconstructs the original status/board/owner *and
creation-time window* clauses.  Decoding does reconstruct the predicate
exactly, but the predicate contains no creation-time clause: the time
cutoff the code computes (here at instant 0) does not occur in it, and
indeed the predicate contains no digit at all, while every formatted
cutoff timestamp contains digits. -/
theorem predicate_has_no_time_window_clause :
    asciiPercentDecode (pyQuote conditionsStr) = some conditionsStr ∧
    (¬ ((timeCutoffStr 0).data <:+: conditionsStr.data)) ∧
    conditionsStr.data.all (fun c => !c.isDigit) = true := by
  exact ⟨by decide, by decide, by decide⟩

set_option maxRecDepth 8192 in
/-- C3 amended: the predicate is percent-encoded before being embedded
in the request URL, and decoding the encoded predicate reconstructs
exactly the original clauses — which are the status, board, owner and
contact clauses; the built filter has no creation-time clause. -/
theorem predicate_encoding_roundtrip (site : String) (t : Int) :
    buildRequestUrl site t =
      site ++ "/v4_6_release/apis/3.0/service/tickets?conditions=" ++ pyQuote conditionsStr ∧
    pyQuote conditionsStr =
      "status/name%3D%22New%22%20and%20board/name%3D%22Service%22%20and%20owner/name%3Dnull%20and%20contact/name%3D%22Thegen%20Jackson%22" ∧
    asciiPercentDecode (pyQuote conditionsStr) = some conditionsStr ∧
    conditionsStr =
      "status/name=\"New\" and board/name=\"Service\" and owner/name=null and contact/name=\"Thegen Jackson\"" := by
  exact ⟨rfl, by decide, by decide, rfl⟩

/-- C6: every note the pipeline creates carries
`internalAnalysisFlag = true` and `resolutionFlag = false`, whatever the
ticket id and note text. -/
theorem note_flags_fixed (site : String) (tid : Val) (text : String) :
    (postTicketNote site tid text).payload.internalAnalysisFlag = true ∧
    (postTicketNote site tid text).payload.resolutionFlag = false :=
  ⟨rfl, rfl⟩

/-- C5: if the ticket query suffers a transport failure or returns an
error status (4xx/5xx, the statuses `raise_for_status` raises on), the
exception is confined to the `try` block — `fetchNewTickets` returns
the empty list instead of propagating it. -/
theorem fetch_error_returns_empty (site : String) (nowEpoch : Int)
    (http : String → HttpOutcome)
    (h : http (buildRequestUrl site nowEpoch) = .failure ∨
         ∃ r, http (buildRequestUrl site nowEpoch) = .ok r ∧
           400 ≤ r.status ∧ r.status < 600) :
    fetchNewTicketsTry site nowEpoch http = none ∧
    fetchNewTickets site nowEpoch http = [] := by
  have htry : fetchNewTicketsTry site nowEpoch http = none := by
    unfold fetchNewTicketsTry
    rcases h with h | ⟨r, hr, h4, h6⟩
    · rw [h]
      rfl
    · rw [hr]
      simp only [reqGet?, Option.bind_eq_bind, Option.some_bind]
      rw [show raiseForStatus? r = none from if_pos ⟨h4, h6⟩]
      rfl
  refine ⟨htry, ?_⟩
  unfold fetchNewTickets
  rw [htry]

/-- C5 witness: a transport failure on the ticket query yields the
empty list. -/
theorem fetch_error_returns_empty_witness :
    ((fun _ : String => HttpOutcome.failure) (buildRequestUrl "https://cw.example" 0) =
        HttpOutcome.failure ∨
      ∃ r, (fun _ : String => HttpOutcome.failure) (buildRequestUrl "https://cw.example" 0) =
        .ok r ∧ 400 ≤ r.status ∧ r.status < 600) ∧
    fetchNewTicketsTry "https://cw.example" 0 (fun _ => HttpOutcome.failure) = none ∧
    fetchNewTickets "https://cw.example" 0 (fun _ => HttpOutcome.failure) = [] :=
  ⟨Or.inl rfl,
   fetch_error_returns_empty "https://cw.example" 0 (fun _ => HttpOutcome.failure) (Or.inl rfl)⟩

/-- A service that answers every completion request with the single
choice `ANALYSIS`. -/
def svcEchoAnalysis : ChatRequest → SvcOutcome := fun _ => .choices ["ANALYSIS"]

/-- C2 counterexample: a ticket record missing the `summary`,
`Priority` and `Company` fields (here the empty record) does not make
`getTriageOutput` return the "Missing required ticket data." sentinel:
every field access uses `.get` with a default, so no KeyError occurs,
the completion call proceeds, and its answer is returned. -/
theorem missing_fields_do_not_yield_sentinel :
    lookupKey ([] : List (String × Val)) "summary" = none ∧
    getTriageOutput svcEchoAnalysis (Val.obj []) = "ANALYSIS" ∧
    "ANALYSIS" ≠ "Triage failed: Missing required ticket data." :=
  ⟨rfl, rfl, by decide⟩

/-- C2 amended: for a ticket record missing `summary`, `Priority` and
`Company`, `getTriageOutput` does not raise and does not return the
"Missing required ticket data." sentinel; instead the fixed defaults
(`No summary available`, `Unknown Company`, `Unknown`) are interpolated
into the user prompt and the completion call proceeds, its first
choice's stripped content being returned. -/
theorem missing_fields_use_default_prompt
    (svc : ChatRequest → SvcOutcome) (fs : List (String × Val)) (up c : String)
    (cs : List String)
    (hs : lookupKey fs "summary" = none) (hp : lookupKey fs "Priority" = none)
    (hc : lookupKey fs "Company" = none)
    (hup : userPrompt? (.obj fs) = some up)
    (hsvc : svc (triageRequest up) = .choices (c :: cs)) :
    up = "\nTitle: " ++ "No summary available" ++
      "\nClient: " ++ "Unknown Company" ++
      "\nIssue: " ++ pyStr (lookupD fs "Description" (.str "No description available")) ++
      "\nTroubleshooting Steps Taken: None documented" ++
      "\nImpact: Unclear from ticket" ++
      "\nUrgency/Priority: " ++ "Unknown" ++
      "\nNotes:\n- Ticket ID: " ++ pyStr (lookupD fs "id" (.str "Unknown ID")) ++
      "\n\nTriage Analysis:\n" ∧
    getTriageOutput svc (.obj fs) = pyStrip c := by
  have hup2 : userPrompt? (.obj fs) =
      some ("\nTitle: " ++ "No summary available" ++
        "\nClient: " ++ "Unknown Company" ++
        "\nIssue: " ++ pyStr (lookupD fs "Description" (.str "No description available")) ++
        "\nTroubleshooting Steps Taken: None documented" ++
        "\nImpact: Unclear from ticket" ++
        "\nUrgency/Priority: " ++ "Unknown" ++
        "\nNotes:\n- Ticket ID: " ++ pyStr (lookupD fs "id" (.str "Unknown ID")) ++
        "\n\nTriage Analysis:\n") := by
    simp only [userPrompt?, lookupD, hs, hp, hc, valGetD?, lookupKey, pyStr,
      Option.bind_eq_bind, Option.some_bind, Option.pure_def]
  refine ⟨Option.some.inj (hup.symm.trans hup2), ?_⟩
  unfold getTriageOutput tryTriage
  rw [hup, Option.bind_eq_bind, Option.some_bind, hsvc]

/-- The user prompt produced for the empty ticket record: every
interpolated field is its default. -/
def promptAllDefaults : String :=
  "\nTitle: No summary available\nClient: Unknown Company\nIssue: No description available\nTroubleshooting Steps Taken: None documented\nImpact: Unclear from ticket\nUrgency/Priority: Unknown\nNotes:\n- Ticket ID: Unknown ID\n\nTriage Analysis:\n"

/-- A service answering every request with the single choice
`"  OK  "`. -/
def svcPaddedOk : ChatRequest → SvcOutcome := fun _ => .choices ["  OK  "]

/-- C2 amended, witness: the empty ticket record with a succeeding
service. -/
theorem missing_fields_use_default_prompt_witness :
    lookupKey ([] : List (String × Val)) "summary" = none ∧
    userPrompt? (Val.obj []) = some promptAllDefaults ∧
    svcPaddedOk (triageRequest promptAllDefaults) = .choices ("  OK  " :: []) ∧
    getTriageOutput svcPaddedOk (Val.obj []) = pyStrip "  OK  " :=
  ⟨rfl, rfl, rfl,
   (missing_fields_use_default_prompt svcPaddedOk [] promptAllDefaults "  OK  " []
     rfl rfl rfl rfl rfl).2⟩

/-- C7: on the success path, `getTriageOutput` invokes the completion
service with exactly two messages — the fixed system instruction and
the per-ticket user prompt — and the fixed model identifier
`gpt-3.5-turbo`, and returns the first choice's content with leading
and trailing whitespace stripped. -/
theorem triage_success_path (svc : ChatRequest → SvcOutcome) (t : Val)
    (up c : String) (cs : List String)
    (hup : userPrompt? t = some up)
    (hsvc : svc (triageRequest up) = .choices (c :: cs)) :
    (triageRequest up).model = "gpt-3.5-turbo" ∧
    (triageRequest up).messages = [⟨"system", systemPrompt⟩, ⟨"user", up⟩] ∧
    getTriageOutput svc t = pyStrip c := by
  refine ⟨rfl, rfl, ?_⟩
  unfold getTriageOutput tryTriage
  rw [hup, Option.bind_eq_bind, Option.some_bind, hsvc]

/-- A one-field raw ticket record for exercising the success path. -/
def ticketEmailDown : Val := .obj [("summary", .str "Email down")]

/-- The user prompt produced for `ticketEmailDown`. -/
def promptEmailDown : String :=
  "\nTitle: Email down\nClient: Unknown Company\nIssue: No description available\nTroubleshooting Steps Taken: None documented\nImpact: Unclear from ticket\nUrgency/Priority: Unknown\nNotes:\n- Ticket ID: Unknown ID\n\nTriage Analysis:\n"

/-- A service answering every request with two choices, the first one
padded with whitespace. -/
def svcTwoChoices : ChatRequest → SvcOutcome :=
  fun _ => .choices [" Analysis text ", "second choice"]

/-- C7 witness: on a concrete ticket and a concrete succeeding service,
the request is as stated and the stripped first choice is returned. -/
theorem triage_success_path_witness :
    userPrompt? ticketEmailDown = some promptEmailDown ∧
    svcTwoChoices (triageRequest promptEmailDown) =
      .choices (" Analysis text " :: ["second choice"]) ∧
    (triageRequest promptEmailDown).model = "gpt-3.5-turbo" ∧
    (triageRequest promptEmailDown).messages =
      [⟨"system", systemPrompt⟩, ⟨"user", promptEmailDown⟩] ∧
    getTriageOutput svcTwoChoices ticketEmailDown = pyStrip " Analysis text " :=
  ⟨rfl, rfl,
   triage_success_path svcTwoChoices ticketEmailDown promptEmailDown
     " Analysis text " ["second choice"] rfl rfl⟩

/-- A raw ticket whose notes link points at a host that will fail at the
transport level. -/
def fsNotesDown : List (String × Val) :=
  [("id", .int 7), ("summary", .str "mail outage"),
   ("_info", .obj [("notes_href", .str "https://cw.example/notes/7")])]

/-- HTTP oracle: the ticket query succeeds with one ticket, but the
notes fetch raises a transport exception. -/
def httpNotesTransportFail : String → HttpOutcome := fun u =>
  if u = "https://cw.example/notes/7" then .failure
  else .ok ⟨200, some (.arr [Val.obj fsNotesDown])⟩

/-- C4 counterexample: when the notes fetch fails at the transport
level, aggregation does not complete with a placeholder — the exception
propagates out of the per-ticket loop to the outer handler and
`fetchNewTickets` returns the empty list, dropping the ticket (and any
already-aggregated ones) entirely. -/
theorem notes_transport_failure_drops_tickets :
    processOneTicket httpNotesTransportFail (Val.obj fsNotesDown) = none ∧
    fetchNewTickets "https://cw.example" 0 httpNotesTransportFail = [] :=
  ⟨rfl, rfl⟩

/-- C4 amended: if the notes fetch returns a non-success status, or the
notes link is absent (or falsy), aggregation completes without raising
and substitutes the fixed non-empty placeholder of the failed
precondition; a transport-level failure of the notes fetch, by
contrast, aborts the enclosing fetch (previous theorem). -/
theorem notes_failure_yields_placeholder
    (http : String → HttpOutcome) (fs : List (String × Val)) (tid s : Val)
    (hid : lookupKey fs "id" = some tid) (hsum : lookupKey fs "summary" = some s)
    (h : notesUrl? fs = some none ∨
         ∃ u r, notesUrl? fs = some (some u) ∧ http u = .ok r ∧ r.status ≠ 200) :
    ∃ d, processOneTicket http (.obj fs) =
        some (.obj [("Ticket ID", tid), ("Summary", s), ("Description", .str d)]) ∧
      (d = "No notes URL available" ∨ d = "Error fetching notes") ∧ d ≠ "" := by
  rcases h with h | ⟨u, r, hu, hr, hst⟩
  · refine ⟨"No notes URL available", ?_, Or.inl rfl, by decide⟩
    simp only [processOneTicket, hid, hsum, h, Option.bind_eq_bind, Option.some_bind]
    rfl
  · refine ⟨"Error fetching notes", ?_, Or.inr rfl, by decide⟩
    simp only [processOneTicket, hid, hsum, hu, Option.bind_eq_bind, Option.some_bind,
      aggregateDescription?, hr]
    rw [if_neg hst]
    rfl

/-- A raw ticket whose notes link answers with a 500 status. -/
def fsStatus500 : List (String × Val) :=
  [("id", .int 9), ("summary", .str "disk full"),
   ("_info", .obj [("notes_href", .str "https://cw.example/notes/9")])]

/-- HTTP oracle answering every request with a bodyless 500. -/
def httpNotes500 : String → HttpOutcome := fun _ => .ok ⟨500, none⟩

/-- C4 amended, witness: a 500 on the notes fetch yields the
`Error fetching notes` placeholder record. -/
theorem notes_failure_yields_placeholder_witness :
    lookupKey fsStatus500 "id" = some (.int 9) ∧
    notesUrl? fsStatus500 = some (some "https://cw.example/notes/9") ∧
    httpNotes500 "https://cw.example/notes/9" = .ok ⟨500, none⟩ ∧
    (∃ d, processOneTicket httpNotes500 (Val.obj fsStatus500) =
        some (.obj [("Ticket ID", .int 9), ("Summary", .str "disk full"),
          ("Description", .str d)]) ∧
      (d = "No notes URL available" ∨ d = "Error fetching notes") ∧ d ≠ "") :=
  ⟨rfl, rfl, rfl,
   notes_failure_yields_placeholder httpNotes500 fsStatus500 (.int 9) (.str "disk full")
     rfl rfl
     (Or.inr ⟨"https://cw.example/notes/9", ⟨500, none⟩, rfl, rfl, by decide⟩)⟩

/-- C9: every element of a list returned by `fetchNewTickets` is a
record with exactly the keys `Ticket ID`, `Summary` and `Description`;
no other field of the raw API ticket object is carried through. -/
theorem fetched_records_have_three_keys (site : String) (nowEpoch : Int)
    (http : String → HttpOutcome) (v : Val)
    (hv : v ∈ fetchNewTickets site nowEpoch http) :
    ∃ tid s d, v = .obj [("Ticket ID", tid), ("Summary", s), ("Description", .str d)] := by
  cases htry : fetchNewTicketsTry site nowEpoch http with
  | none =>
    unfold fetchNewTickets at hv
    rw [htry] at hv
    exact absurd hv (List.not_mem_nil v)
  | some l =>
    have hvl : v ∈ l := by
      unfold fetchNewTickets at hv
      rw [htry] at hv
      exact hv
    unfold fetchNewTicketsTry at htry
    simp only [Option.bind_eq_bind, Option.bind_eq_some] at htry
    obtain ⟨r, hr, u0, hu0, body, hb, ts, hts, hall⟩ := htry
    obtain ⟨t, ht, hone⟩ := processAll_mem_exists http ts l hall v hvl
    exact processOneTicket_shape http t v hone

/-- A minimal raw ticket: id and summary only, no `_info`. -/
def rawTicketW9 : Val := .obj [("id", .int 1), ("summary", .str "a")]

/-- HTTP oracle returning the single minimal ticket. -/
def httpW9 : String → HttpOutcome := fun _ => .ok ⟨200, some (.arr [rawTicketW9])⟩

/-- The record `fetchNewTickets` builds from `rawTicketW9`. -/
def recordW9 : Val :=
  .obj [("Ticket ID", .int 1), ("Summary", .str "a"),
    ("Description", .str "No notes URL available")]

/-- C9 witness: the concrete fetched record has exactly the three
keys. -/
theorem fetched_records_have_three_keys_witness :
    recordW9 ∈ fetchNewTickets "https://cw.example" 0 httpW9 ∧
    ∃ tid s d, recordW9 =
      Val.obj [("Ticket ID", tid), ("Summary", s), ("Description", .str d)] :=
  have hmem : recordW9 ∈ fetchNewTickets "https://cw.example" 0 httpW9 := by
    show recordW9 ∈ [recordW9]
    exact List.Mem.head _
  ⟨hmem, fetched_records_have_three_keys "https://cw.example" 0 httpW9 recordW9 hmem⟩

/-- Two well-formed raw tickets as the ConnectWise API would return
them. -/
def rawTicketA : Val :=
  .obj [("id", .int 101), ("summary", .str "printer down"), ("_info", .obj [])]

/-- Second raw ticket of the pair. -/
def rawTicketB : Val :=
  .obj [("id", .int 102), ("summary", .str "vpn issue"), ("_info", .obj [])]

/-- HTTP oracle: the ticket query succeeds with the two tickets. -/
def httpTwoTickets : String → HttpOutcome :=
  fun _ => .ok ⟨200, some (.arr [rawTicketA, rawTicketB])⟩

/-- A completion service that raises on every request, so the analyze
step of each ticket fails (and is absorbed into the `GPT processing
error` sentinel). -/
def svcAlwaysError : ChatRequest → SvcOutcome := fun _ => .error

/-- C1, evaluated at the failing input: two tickets are fetched and the
analyze step fails for the first, which `getTriageOutput` duly absorbs —
but the run still aborts with zero notes posted, because `processTickets`
evaluates `ticket['id']` on records keyed `Ticket ID`, an uncaught
KeyError.  The second ticket is never processed, contradicting the
per-ticket failure-isolation property. -/
theorem keyerror_aborts_processing :
    (fetchNewTickets "https://cw.example" 0 httpTwoTickets).length = 2 ∧
    getTriageOutput svcAlwaysError
      (Val.obj [("Ticket ID", .int 101), ("Summary", .str "printer down"),
        ("Description", .str "No notes URL available")]) =
      "Triage failed: GPT processing error." ∧
    processTickets "https://cw.example" 0 httpTwoTickets svcAlwaysError = .crashed [] :=
  ⟨rfl, rfl, rfl⟩

/-- One well-formed raw ticket for the idempotence scenario. -/
def rawTicketC : Val :=
  .obj [("id", .int 55), ("summary", .str "password reset"), ("_info", .obj [])]

/-- HTTP oracle: an unchanged ticket set of one ticket, identical on
every run. -/
def httpOneTicket : String → HttpOutcome :=
  fun _ => .ok ⟨200, some (.arr [rawTicketC])⟩

/-- A completion service that succeeds with a fixed analysis. -/
def svcFixedAnalysis : ChatRequest → SvcOutcome :=
  fun _ => .choices ["Structured triage analysis."]

/-- C8, evaluated at the failing input: against an unchanged ticket set
within the same window, each run crashes at `ticket['id']` before
issuing any note-creation write, so two successive runs post zero notes
in total — not the two notes per ticket the claim asserts. -/
theorem double_run_posts_no_notes :
    processTickets "https://cw.example" 0 httpOneTicket svcFixedAnalysis = .crashed [] ∧
    (writesOf (processTickets "https://cw.example" 0 httpOneTicket svcFixedAnalysis) ++
     writesOf (processTickets "https://cw.example" 0 httpOneTicket svcFixedAnalysis)).length
      = 0 :=
  ⟨rfl, rfl⟩

end Triage
